import Mathlib

/-!
Verification of the grid Bayesian updater in `src/funcs/BernGrid.py`.

The source file is a partial transcription of an R script into Python: the
executable Python prefix of `bern_grid` is lines 34-45, followed by plotting
code in R syntax and a top-level demo (lines 127-136).  Two layers are
modelled here:

* a literal model of the Python semantics of the executable statements,
  including the runtime errors they raise (`bern_grid`, `topLevel`);
* the intended computation, modelled from the spec where the source garbles
  or omits it (`likelihood`, `evidence`, `posterior`, `HDIofGrid`).
-/

/-- Python runtime errors reachable in the transcript: unresolved global
names, unsupported operand types, and out-of-range axis arguments. -/
inductive PyErr where
  | nameError (n : String)
  | typeError (msg : String)
  | axisError (msg : String)
deriving DecidableEq

/-- Literal semantics of the executable prefix of `bern_grid`
(src/funcs/BernGrid.py lines 34-45) on a floating-point grid, the input
domain of the spec.  `dataGlobal` is the binding of the module-level global
name `Data` at call time: line 37 reads `Data`, not the `real_data`
parameter, so an unbound `Data` raises `NameError` there.  When `Data` is
bound, line 41 applies `^` (numpy bitwise xor) to the float64 array
`theta`, raising `TypeError`; the posterior assignment (line 45) and the
return (line 125) are never reached. -/
def bern_grid (dataGlobal : Option (List ℤ)) (theta p_theta : List ℚ)
    (real_data : List ℤ) (credib : ℚ) (n_to_plot : Option ℕ) :
    Except PyErr (List ℚ) :=
  match dataGlobal with
  | none => .error (.nameError "Data")
  | some d =>
    let _ones := d.count 1
    let _N := real_data.length
    .error (.typeError "ufunc bitwise_xor not supported for float64")

/-- Modelled from the spec: the binomial likelihood
`L(θ) = θ^ones * (1-θ)^(M-ones)` of spec section 4.1 step 1; line 41 of the
source garbles it with the xor operator.  Natural-number exponents give the
spec's convention `0^0 = 1`. -/
def likelihood (θ : ℚ) (ones M : ℕ) : ℚ :=
  θ ^ ones * (1 - θ) ^ (M - ones)

/-- Modelled from the spec: `Evidence = Σ L(θ_i) * prior_i`
(spec section 4.1 step 2). -/
def evidence (grid prior : List ℚ) (ones M : ℕ) : ℚ :=
  ((grid.zip prior).map (fun gp => likelihood gp.1 ones M * gp.2)).sum

/-- Modelled from the spec: `Posterior_i = L(θ_i) * prior_i / Evidence`
(spec section 4.1 step 3). -/
def posterior (grid prior : List ℚ) (ones M : ℕ) : List ℚ :=
  (grid.zip prior).map
    (fun gp => likelihood gp.1 ones M * gp.2 / evidence grid prior ones M)

/-- Descending-mass order on grid indices: `i` comes before `j` when the
mass at `j` is at most the mass at `i`. -/
abbrev descRel (p : List ℚ) (i j : ℕ) : Prop :=
  p.getD j 0 ≤ p.getD i 0

instance (p : List ℚ) : IsTotal ℕ (descRel p) :=
  ⟨fun i j => le_total (p.getD j 0) (p.getD i 0)⟩

instance (p : List ℚ) : IsTrans ℕ (descRel p) :=
  ⟨fun _ _ _ hab hbc => le_trans hbc hab⟩

/-- Grid indices sorted by descending posterior mass; insertion sort is
stable, so ties keep their original order as the spec requires. -/
def sortIdx (p : List ℚ) : List ℕ :=
  List.insertionSort (descRel p) (List.range p.length)

/-- Accumulate indices in the given order until the running mass first
reaches `credMass`; returns the included indices. -/
def accumUntil (p : List ℚ) (credMass : ℚ) : List ℕ → ℚ → List ℕ
  | [], _ => []
  | i :: rest, acc =>
    if credMass ≤ acc + p.getD i 0 then [i]
    else i :: accumUntil p credMass rest (acc + p.getD i 0)

/-- The mass at the index where the accumulation stops: in descending
order this is the smallest included mass, the waterline. -/
def waterline (p : List ℚ) (credMass : ℚ) : List ℕ → ℚ → ℚ
  | [], _ => 0
  | i :: rest, acc =>
    if credMass ≤ acc + p.getD i 0 then p.getD i 0
    else waterline p credMass rest (acc + p.getD i 0)

/-- Result of the HDI search: included indices, achieved cumulative mass,
and waterline height. -/
structure HDIinfo where
  indices : List ℕ
  mass : ℚ
  height : ℚ
deriving DecidableEq

/-- Modelled from the spec: `HDIofGrid` is sourced from `HDIofGrid.R` at
line 100 of the source but that file is absent from the repository.  Per
spec section 4.1 step 4: sort grid indices by descending posterior mass
(ties by original order), accumulate until the cumulative mass reaches
`credMass`, and expose the included indices, the achieved mass and the
waterline height. -/
def HDIofGrid (probMassVec : List ℚ) (credMass : ℚ) : HDIinfo :=
  ⟨accumUntil probMassVec credMass (sortIdx probMassVec) 0,
   ((accumUntil probMassVec credMass (sortIdx probMassVec) 0).map
     (fun i => probMassVec.getD i 0)).sum,
   waterline probMassVec credMass (sortIdx probMassVec) 0⟩

/-- A top-level statement of the demo, abstracted to the global names it
reads, the non-name error its evaluation raises (if any), and the global
name it binds (if any). -/
inductive Stmt where
  | assign (name : String) (refs : List String) (raises : Option PyErr)
  | expr (refs : List String) (raises : Option PyErr)
deriving DecidableEq

def stRefs : Stmt → List String
  | .assign _ r _ => r
  | .expr r _ => r

def stRaises : Stmt → Option PyErr
  | .assign _ _ z => z
  | .expr _ z => z

def stBinds : Stmt → Option String
  | .assign n _ _ => some n
  | .expr _ _ => none

/-- Run the statements in order: resolve the referenced names (first
unresolved one raises `NameError`), then any evaluation error, then bind.
Returns the environment reached and the error that halted execution. -/
def runStmts : List String → List Stmt → List String × Option PyErr
  | env, [] => (env, none)
  | env, s :: rest =>
    match (stRefs s).find? (fun r => !(env.contains r)) with
    | some n => (env, some (.nameError n))
    | none =>
      match stRaises s with
      | some e => (env, some e)
      | none =>
        match stBinds s with
        | some n => runStmts (n :: env) rest
        | none => runStmts env rest

/-- `np.arange(start, stop, step)`: `⌈(stop - start) / step⌉` evenly spaced
values from `start` (line 127 of the source). -/
def arange (start stop step : ℚ) : List ℚ :=
  (List.range ⌈(stop - start) / step⌉.toNat).map
    (fun i => start + i * step)

/-- Names bound before the demo runs: builtins used by the file, `np` from
line 1, and `bern_grid` from the def at line 3. -/
def initialEnv : List String := ["np", "print", "len", "map", "bern_grid"]

/-- The top-level demo statements, lines 127-136 of the source.  Line 129
`np.min(theta, 1-theta)` passes the array `1-theta = [1]` as the `axis`
argument of `np.min`, which is out of bounds for the 1-d array `theta`.
Lines 133-135 reference the names `c`, `rep`, `openGraph`, `Theta`,
`pTheta` and `BernGrid`, none of which is ever defined. -/
def topLevel : List Stmt :=
  [.assign "theta" ["np"] none,
   .expr ["print", "theta"] none,
   .assign "p_theta" ["np", "theta"]
     (some (.axisError "axis 1 is out of bounds for array of dimension 1")),
   .assign "p_theta" ["p_theta", "np"] none,
   .expr ["print", "theta"] none,
   .expr ["print", "p_theta"] none,
   .assign "Data" ["c", "rep"] none,
   .expr ["openGraph"] none,
   .assign "posterior" ["BernGrid", "Theta", "pTheta", "Data"] none]

/-! ### Lemmas about the HDI accumulation -/

theorem accumUntil_ne_nil (p : List ℚ) (c : ℚ) (l : List ℕ) (acc : ℚ)
    (h : l ≠ []) : accumUntil p c l acc ≠ [] := by
  cases l with
  | nil => exact absurd rfl h
  | cons a rest =>
    simp only [accumUntil]
    split <;> simp

theorem accumUntil_subset (p : List ℚ) (c : ℚ) :
    ∀ (l : List ℕ) (acc : ℚ) (i : ℕ), i ∈ accumUntil p c l acc → i ∈ l := by
  intro l
  induction l with
  | nil => intro acc i h; simp [accumUntil] at h
  | cons a rest ih =>
    intro acc i h
    simp only [accumUntil] at h
    split at h
    · simp at h; simp [h]
    · rcases List.mem_cons.1 h with h1 | h2
      · simp [h1]
      · exact List.mem_cons_of_mem a (ih _ i h2)

theorem accumUntil_spec (p : List ℚ) (c : ℚ) :
    ∀ (l : List ℕ) (acc : ℚ), List.Sorted (descRel p) l →
      c ≤ acc + (l.map (fun i => p.getD i 0)).sum →
      c ≤ acc + ((accumUntil p c l acc).map (fun i => p.getD i 0)).sum ∧
      (∀ i ∈ accumUntil p c l acc, waterline p c l acc ≤ p.getD i 0) ∧
      (accumUntil p c l acc ≠ [] →
        waterline p c l acc ∈
          (accumUntil p c l acc).map (fun i => p.getD i 0)) := by
  intro l
  induction l with
  | nil =>
    intro acc _ hcov
    refine ⟨by simpa [accumUntil] using hcov, ?_, ?_⟩
    · intro i h; simp [accumUntil] at h
    · intro h; exact absurd rfl h
  | cons a rest ih =>
    intro acc hsorted hcov
    rw [List.sorted_cons] at hsorted
    obtain ⟨ha, hrest⟩ := hsorted
    simp only [accumUntil, waterline]
    by_cases hstop : c ≤ acc + p.getD a 0
    · simp only [if_pos hstop]
      refine ⟨by simpa using hstop, ?_, by simp⟩
      intro i h
      simp at h
      simp [h]
    · simp only [if_neg hstop]
      have hcov2 : c ≤ (acc + p.getD a 0) +
          (rest.map (fun i => p.getD i 0)).sum := by
        simp only [List.map_cons, List.sum_cons] at hcov
        linarith
      cases rest with
      | nil =>
        exact absurd (by simpa using hcov2) hstop
      | cons b t =>
        obtain ⟨ihcov, ihmin, ihmem⟩ := ih (acc + p.getD a 0) hrest hcov2
        have hne : accumUntil p c (b :: t) (acc + p.getD a 0) ≠ [] :=
          accumUntil_ne_nil p c _ _ (by simp)
        have hwmem := ihmem hne
        obtain ⟨j, hj, hjw⟩ := List.mem_map.1 hwmem
        have hjrest : j ∈ b :: t := accumUntil_subset p c _ _ j hj
        have hwa : waterline p c (b :: t) (acc + p.getD a 0) ≤ p.getD a 0 := by
          rw [← hjw]; exact ha j hjrest
        refine ⟨?_, ?_, ?_⟩
        · simp only [List.map_cons, List.sum_cons]
          linarith
        · intro i h
          rcases List.mem_cons.1 h with h1 | h2
          · rw [h1]; exact hwa
          · exact ihmin i h2
        · intro _
          exact List.mem_cons_of_mem _ hwmem

theorem sum_getD_range (l : List ℚ) :
    ((List.range l.length).map (fun i => l.getD i 0)).sum = l.sum := by
  induction l with
  | nil => simp
  | cons a t ih =>
    rw [List.length_cons, List.range_succ_eq_map, List.map_cons, List.map_map]
    have : ((fun i => (a :: t).getD i 0) ∘ Nat.succ) =
        fun i => t.getD i 0 := by
      funext i
      simp [Function.comp, List.getD_cons_succ]
    rw [this, List.sum_cons, List.getD_cons_zero, ih, List.sum_cons]

theorem sum_sortIdx (p : List ℚ) :
    ((sortIdx p).map (fun i => p.getD i 0)).sum = p.sum := by
  rw [sortIdx, List.Perm.sum_eq
    ((List.perm_insertionSort (descRel p) (List.range p.length)).map _),
    sum_getD_range]

theorem sortIdx_ne_nil (p : List ℚ) (h : p ≠ []) : sortIdx p ≠ [] := by
  intro hnil
  have hlen := (List.perm_insertionSort (descRel p)
    (List.range p.length)).length_eq
  rw [sortIdx] at hnil
  rw [hnil] at hlen
  simp at hlen
  exact h (List.eq_nil_of_length_eq_zero hlen.symm)

/-! ### Claim theorems -/

/-- C7: for every non-negative mass vector summing to 1 (every posterior of
a valid input with non-zero evidence) and every credible mass in (0,1), the
HDI's achieved cumulative mass is at least the requested credible mass, and
the waterline height equals the minimum mass among the included indices
(it is a lower bound of them and is attained at one of them). -/
theorem hdi_mass_and_waterline (p : List ℚ) (c : ℚ)
    (hpos : ∀ x ∈ p, 0 ≤ x) (hsum : p.sum = 1) (h0 : 0 < c) (h1 : c < 1) :
    c ≤ (HDIofGrid p c).mass ∧
    (∀ i ∈ (HDIofGrid p c).indices, (HDIofGrid p c).height ≤ p.getD i 0) ∧
    (HDIofGrid p c).height ∈
      ((HDIofGrid p c).indices.map (fun i => p.getD i 0)) := by
  have hsorted : List.Sorted (descRel p) (sortIdx p) :=
    List.sorted_insertionSort (descRel p) (List.range p.length)
  have hcov : c ≤ 0 + ((sortIdx p).map (fun i => p.getD i 0)).sum := by
    rw [sum_sortIdx, hsum]
    linarith
  obtain ⟨hcov2, hmin, hmem⟩ := accumUntil_spec p c (sortIdx p) 0 hsorted hcov
  have hpnil : p ≠ [] := by
    intro hp
    rw [hp] at hsum
    simp at hsum
  have hne : accumUntil p c (sortIdx p) 0 ≠ [] :=
    accumUntil_ne_nil p c _ 0 (sortIdx_ne_nil p hpnil)
  exact ⟨by simpa [HDIofGrid] using hcov2, hmin, hmem hne⟩

/-- Closed witness for `hdi_mass_and_waterline` at the spec's concrete
scenario prior. -/
theorem hdi_mass_and_waterline_witness :
    (19 : ℚ)/20 ≤ (HDIofGrid [1/10, 2/10, 4/10, 2/10, 1/10] (19/20)).mass ∧
    (∀ i ∈ (HDIofGrid [1/10, 2/10, 4/10, 2/10, 1/10] (19/20)).indices,
      (HDIofGrid [1/10, 2/10, 4/10, 2/10, 1/10] (19/20)).height ≤
        ([1/10, 2/10, 4/10, 2/10, 1/10] : List ℚ).getD i 0) ∧
    (HDIofGrid [1/10, 2/10, 4/10, 2/10, 1/10] (19/20)).height ∈
      ((HDIofGrid [1/10, 2/10, 4/10, 2/10, 1/10] (19/20)).indices.map
        (fun i => ([1/10, 2/10, 4/10, 2/10, 1/10] : List ℚ).getD i 0)) :=
  hdi_mass_and_waterline [1/10, 2/10, 4/10, 2/10, 1/10] (19/20)
    (by norm_num) (by norm_num) (by norm_num) (by norm_num)

/-- C9: for every input on the spec's floating-point domain, `bern_grid`
raises before the posterior (line 45) is computed or returned: with the
global `Data` unbound, line 37 raises `NameError`; with it bound, line 41's
xor on the float grid raises `TypeError`. -/
theorem bern_grid_always_raises (theta p_theta : List ℚ)
    (real_data d : List ℤ) (credib : ℚ) (n_to_plot : Option ℕ) :
    bern_grid none theta p_theta real_data credib n_to_plot =
      .error (.nameError "Data") ∧
    bern_grid (some d) theta p_theta real_data credib n_to_plot =
      .error (.typeError "ufunc bitwise_xor not supported for float64") :=
  ⟨rfl, rfl⟩

/-- C8: `bern_grid` is not a pure function of its arguments: with identical
arguments, the outcome differs according to the binding of the module-level
global name `Data` (NameError when unbound, TypeError when bound). -/
theorem bern_grid_global_state_dependence :
    bern_grid none [1/2] [1] [1] (95/100) none ≠
      bern_grid (some [1]) [1/2] [1] [1] (95/100) none := by
  intro h
  rw [bern_grid, bern_grid] at h
  exact PyErr.noConfusion (Except.error.inj h)

/-- C1: the likelihood line (line 41) never computes the binomial kernel:
the call raises `NameError` (`Data` unbound at line 37) or `TypeError`
(xor on the float grid), while the spec's kernel `likelihood` takes the
claimed values, including the conventions at the edges. -/
theorem bern_grid_likelihood_line_defect :
    bern_grid none [1/2] [1] [1] (95/100) none =
      .error (.nameError "Data") ∧
    bern_grid (some [1]) [1/2] [1] [1] (95/100) none =
      .error (.typeError "ufunc bitwise_xor not supported for float64") ∧
    likelihood (1/2) 1 1 = 1/2 ∧
    likelihood 0 1 1 = 0 ∧
    likelihood 1 0 1 = 0 ∧
    likelihood 0 0 0 = 1 :=
  ⟨rfl, rfl, by norm_num [likelihood], by norm_num [likelihood],
   by norm_num [likelihood], by norm_num [likelihood]⟩

/-- C2: on the spec's concrete valid scenario, the code raises `NameError`
instead of returning a posterior, while the spec-modelled posterior at that
input is non-negative and sums to exactly 1. -/
theorem bern_grid_no_posterior_concrete :
    bern_grid none [1/10, 3/10, 5/10, 7/10, 9/10]
      [1/10, 2/10, 4/10, 2/10, 1/10] [1, 1, 1, 0] (95/100) none =
      .error (.nameError "Data") ∧
    (posterior [1/10, 3/10, 5/10, 7/10, 9/10]
      [1/10, 2/10, 4/10, 2/10, 1/10] 3 4).sum = 1 ∧
    (∀ q ∈ posterior [1/10, 3/10, 5/10, 7/10, 9/10]
      [1/10, 2/10, 4/10, 2/10, 1/10] 3 4, 0 ≤ q) :=
  ⟨rfl, by norm_num [posterior, evidence, likelihood],
   by norm_num [posterior, evidence, likelihood]⟩

/-- C3: on the degenerate input grid=[0], prior=[1], observations=[1] the
spec-modelled evidence is 0, but the code raises `NameError` (or
`TypeError` with `Data` bound) rather than any `DegenerateEvidence`
domain error. -/
theorem bern_grid_degenerate_evidence_defect :
    evidence [0] [1] 1 1 = 0 ∧
    bern_grid none [0] [1] [1] (95/100) none =
      .error (.nameError "Data") ∧
    bern_grid (some [1]) [0] [1] [1] (95/100) none =
      .error (.typeError "ufunc bitwise_xor not supported for float64") :=
  ⟨by norm_num [evidence, likelihood], rfl, rfl⟩

/-- C4: `bern_grid` performs no input validation: a grid of length 5 with a
prior of length 4 produces exactly the same `NameError` as the well-formed
input, and an out-of-range credible mass (2) is not rejected either. -/
theorem bern_grid_no_input_validation :
    ([1/10, 3/10, 5/10, 7/10, 9/10] : List ℚ).length ≠
      ([1/10, 2/10, 4/10, 2/10] : List ℚ).length ∧
    bern_grid none [1/10, 3/10, 5/10, 7/10, 9/10]
      [1/10, 2/10, 4/10, 2/10] [1] (95/100) none =
      .error (.nameError "Data") ∧
    bern_grid none [1/10, 3/10, 5/10, 7/10, 9/10]
      [1/10, 2/10, 4/10, 2/10] [1] (95/100) none =
      bern_grid none [1/10, 3/10, 5/10, 7/10, 9/10]
        [1/10, 2/10, 4/10, 2/10, 1/10] [1] (95/100) none ∧
    bern_grid none [1/10, 3/10, 5/10, 7/10, 9/10]
      [1/10, 2/10, 4/10, 2/10, 1/10] [1] 2 none =
      .error (.nameError "Data") :=
  ⟨by decide, rfl, rfl, rfl⟩

/-- C5: with an empty observation sequence the code still raises
`NameError` instead of returning the prior, while the spec-modelled
posterior with `M = 0` equals the prior. -/
theorem bern_grid_empty_data_defect :
    bern_grid none [1/4, 3/4] [1/3, 2/3] [] (95/100) none =
      .error (.nameError "Data") ∧
    posterior [1/4, 3/4] [1/3, 2/3] 0 0 = [1/3, 2/3] :=
  ⟨rfl, by norm_num [posterior, evidence, likelihood]⟩

/-- C6: the code returns no posterior, evidence or HDI for any ordering of
the observations (both orderings raise the same `NameError`), while on the
spec-modelled side the sufficient statistics and hence the posterior agree
across the permutation. -/
theorem bern_grid_permutation_defect :
    bern_grid none [1/4, 3/4] [1/3, 2/3] [1, 0] (95/100) none =
      .error (.nameError "Data") ∧
    bern_grid none [1/4, 3/4] [1/3, 2/3] [0, 1] (95/100) none =
      .error (.nameError "Data") ∧
    ([1, 0] : List ℤ).count 1 = ([0, 1] : List ℤ).count 1 ∧
    posterior [1/4, 3/4] [1/3, 2/3] (([1, 0] : List ℤ).count 1) 2 =
      posterior [1/4, 3/4] [1/3, 2/3] (([0, 1] : List ℤ).count 1) 2 :=
  ⟨rfl, rfl, by decide, by norm_num⟩

/-- C10: running the module's top-level demo halts with an error before
the name `posterior` is ever bound, so importing the file always fails
before `bern_grid` can be used; the demo's calls reference the undefined
names `c`, `openGraph` and `BernGrid`; and the demo grid
`np.arange(0, 1, 11)` is the single point 0, which with the single-head
data gives evidence 0, the degenerate case. -/
theorem module_import_always_fails :
    (runStmts initialEnv topLevel).2.isSome = true ∧
    (runStmts initialEnv topLevel).1.contains "posterior" = false ∧
    (["c", "openGraph", "BernGrid"].all
      (fun n => (topLevel.map stRefs).flatten.contains n &&
        !((initialEnv ++ topLevel.filterMap stBinds).contains n))) = true ∧
    arange 0 1 11 = [0] ∧
    evidence (arange 0 1 11) [1] 1 1 = 0 := by
  have h : ⌈((1 : ℚ) - 0) / 11⌉ = 1 := by
    rw [Int.ceil_eq_iff]
    norm_num
  refine ⟨by decide, by decide, by decide, ?_, ?_⟩
  · simp only [arange, h]
    norm_num [List.range_succ]
  · simp only [arange, h]
    norm_num [List.range_succ, evidence, likelihood]
